import Mathlib

/-!
Shallow embedding of the coppol copy-trading core
(`app/models/trade.py`, `app/models/trader.py`, `app/models/market.py`,
`app/brain/scorer.py`, `app/brain/decider.py`, `app/engine/sizer.py`,
`app/engine/paper_trader.py`) together with proofs about the
scoring → decision → simulated-execution pipeline.

Modelling conventions:
* Python floats are modelled as exact rationals (`ℚ`); Python ints as `ℤ`.
* Python's `round(x, n)` (banker's rounding) is modelled by `round2`/`round1`
  built on `roundHalfEven`.
* Python dicts keyed by strings are modelled as association lists
  (`List (String × _)`) with first-match lookup, or as lists of records
  looked up with `List.find?`; `del d[k]` is `List.eraseP` (first match).
* The injectable source of randomness (`random.uniform(0.005, 0.03)` in
  `PaperTrader.execute_trade`) is an explicit `base_slippage` argument;
  the fresh uuid for a new trade is an explicit `new_id` argument; wall-clock
  time (`datetime.utcnow()`) is an explicit `now : ℚ` argument measured in
  minutes.
* Code that can raise `ZeroDivisionError` (`DynamicSizer.calculate_risk_reward`
  at `entry_price = 0` resp. `1`) returns an `Option`, `none` marking the raise.
* Timestamps stored purely for display, logging, database persistence calls
  (which are fire-and-forget and never affect in-memory state), and string
  interpolation of numbers into reason strings are omitted.
-/

namespace Coppol

/-- Python `round` to an integer: round-half-to-even (banker's rounding). -/
def roundHalfEven (q : ℚ) : ℤ :=
  let f := ⌊q⌋
  let r := q - f
  if r < 1/2 then f
  else if r > 1/2 then f + 1
  else if 2 ∣ f then f else f + 1

/-- Python `round(x, 2)`. -/
def round2 (q : ℚ) : ℚ := (roundHalfEven (q * 100) : ℚ) / 100

/-- Python `round(x, 1)`. -/
def round1 (q : ℚ) : ℚ := (roundHalfEven (q * 10) : ℚ) / 10

/-- `app/config.py` `Settings` — the fields the core logic reads,
with their declared defaults. -/
structure Settings where
  paper_initial_balance : ℚ := 1000
  min_whale_score : ℚ := 50
  max_trade_percent : ℚ := 50
deriving Repr

/-- `app/models/trade.py` `TradeSide`. -/
inductive TradeSide
  | YES
  | NO
deriving DecidableEq, Repr

/-- `app/models/trade.py` `TradeStatus`. -/
inductive TradeStatus
  | OPEN
  | CLOSED
  | CANCELLED
deriving DecidableEq, Repr

/-- `app/models/trade.py` `TradeSignal`. -/
structure TradeSignal where
  whale_address : String
  whale_name : Option String := none
  whale_score : ℚ := 0
  market_id : String
  market_question : Option String := none
  category : Option String := none
  side : TradeSide
  amount : ℚ
  price : ℚ
deriving DecidableEq, Repr

/-- `app/models/trade.py` `CopyDecision`. -/
structure CopyDecision where
  should_copy : Bool
  amount : ℚ := 0
  reason : String
  confidence : ℚ := 0
  consensus_count : ℤ := 1
deriving DecidableEq, Repr

/-- `app/models/trade.py` `Trade`. -/
structure Trade where
  id : String
  is_paper : Bool := true
  whale_address : String
  whale_name : Option String := none
  market_id : String
  market_question : Option String := none
  category : Option String := none
  side : TradeSide
  amount : ℚ
  entry_price : ℚ
  exit_price : Option ℚ := none
  status : TradeStatus := TradeStatus.OPEN
  profit : Option ℚ := none
  profit_percent : Option ℚ := none
  whale_score_at_entry : ℚ := 0
  consensus_count : ℤ := 1
  decision_reason : Option String := none
deriving DecidableEq, Repr

/-- `Trade.calculate_profit` (`app/models/trade.py`): binary-payout profit,
written to the `profit` / `profit_percent` fields. -/
def Trade.calculate_profit (t : Trade) : Trade :=
  match t.exit_price with
  | none => t
  | some ep =>
    let profit : ℚ :=
      match t.side with
      | TradeSide.YES =>
        if ep ≥ 0.99 then t.amount * (1 / t.entry_price - 1)
        else -t.amount
      | TradeSide.NO =>
        if ep ≤ 0.01 then t.amount * (1 / (1 - t.entry_price) - 1)
        else -t.amount
    let t' := { t with profit := some profit }
    if t.amount > 0 then
      { t' with profit_percent := some (profit / t.amount * 100) }
    else t'

/-- `app/models/trade.py` `TradingStats`. -/
structure TradingStats where
  total_trades : ℤ := 0
  open_trades : ℤ := 0
  closed_trades : ℤ := 0
  wins : ℤ := 0
  losses : ℤ := 0
  win_rate : ℚ := 0
  total_profit : ℚ := 0
  total_invested : ℚ := 0
  roi : ℚ := 0
  best_trade_profit : ℚ := 0
  worst_trade_loss : ℚ := 0
  avg_profit_per_trade : ℚ := 0
deriving DecidableEq, Repr

/-- `TradingStats.update` (`app/models/trade.py`): fold a closed trade into
the aggregate statistics. -/
def TradingStats.update (s : TradingStats) (t : Trade) : TradingStats :=
  match t.profit with
  | none => s
  | some p =>
    if t.status ≠ TradeStatus.CLOSED then s
    else
      let s := { s with
        closed_trades := s.closed_trades + 1,
        total_invested := s.total_invested + t.amount,
        total_profit := s.total_profit + p }
      let s :=
        if p > 0 then
          { s with wins := s.wins + 1,
                   best_trade_profit :=
                     if p > s.best_trade_profit then p else s.best_trade_profit }
        else
          { s with losses := s.losses + 1,
                   worst_trade_loss :=
                     if p < s.worst_trade_loss then p else s.worst_trade_loss }
      let s :=
        if s.closed_trades > 0 then
          { s with win_rate := (s.wins : ℚ) / (s.closed_trades : ℚ),
                   avg_profit_per_trade := s.total_profit / (s.closed_trades : ℚ) }
        else s
      if s.total_invested > 0 then
        { s with roi := s.total_profit / s.total_invested }
      else s

/-- `app/models/market.py` `Market` — only the field the decision logic
reads (`liquidity`). -/
structure Market where
  id : String := ""
  liquidity : ℚ := 0
deriving DecidableEq, Repr

/-- `app/models/trader.py` `TraderStats` (the scoring inputs). -/
structure TraderStats where
  win_rate : ℚ := 0
  roi_30d : ℚ := 0
  trade_count : ℤ := 0
  max_drawdown : ℚ := 0
  consistency : ℚ := 0
  diversity_score : ℚ := 0
deriving DecidableEq, Repr

/-- `app/models/trader.py` `Trader` — the fields the decider reads. -/
structure Trader where
  address : String
  name : Option String := none
  stats : TraderStats := {}
  score : ℚ := 0
deriving DecidableEq, Repr

/-! ## `app/brain/scorer.py` — `TraderScorer` -/

namespace TraderScorer

def WIN_RATE_EXCELLENT : ℚ := 0.65
def WIN_RATE_GOOD : ℚ := 0.55
def WIN_RATE_MIN : ℚ := 0.45

def ROI_EXCELLENT : ℚ := 0.30
def ROI_GOOD : ℚ := 0.15
def ROI_MIN : ℚ := 0.05

def TRADES_EXCELLENT : ℤ := 100
def TRADES_GOOD : ℤ := 50
def TRADES_MIN : ℤ := 20

def DRAWDOWN_EXCELLENT : ℚ := 0.10
def DRAWDOWN_GOOD : ℚ := 0.20
def DRAWDOWN_MAX : ℚ := 0.40

/-- `TraderScorer._score_win_rate`. -/
def score_win_rate (win_rate : ℚ) : ℚ :=
  if win_rate ≥ WIN_RATE_EXCELLENT then 100
  else if win_rate ≥ WIN_RATE_GOOD then
    60 + (win_rate - WIN_RATE_GOOD) / (WIN_RATE_EXCELLENT - WIN_RATE_GOOD) * 40
  else if win_rate ≥ WIN_RATE_MIN then
    30 + (win_rate - WIN_RATE_MIN) / (WIN_RATE_GOOD - WIN_RATE_MIN) * 30
  else
    win_rate / WIN_RATE_MIN * 30

/-- `TraderScorer._score_roi`. -/
def score_roi (roi : ℚ) : ℚ :=
  if roi ≤ 0 then max 0 (20 + roi * 100)
  else if roi ≥ ROI_EXCELLENT then 100
  else if roi ≥ ROI_GOOD then
    70 + (roi - ROI_GOOD) / (ROI_EXCELLENT - ROI_GOOD) * 30
  else if roi ≥ ROI_MIN then
    40 + (roi - ROI_MIN) / (ROI_GOOD - ROI_MIN) * 30
  else
    20 + roi / ROI_MIN * 20

/-- `TraderScorer._score_trade_count` (Python `/` on ints is true division). -/
def score_trade_count (count : ℤ) : ℚ :=
  if count ≥ TRADES_EXCELLENT then 100
  else if count ≥ TRADES_GOOD then
    60 + ((count : ℚ) - (TRADES_GOOD : ℚ)) / ((TRADES_EXCELLENT : ℚ) - (TRADES_GOOD : ℚ)) * 40
  else if count ≥ TRADES_MIN then
    30 + ((count : ℚ) - (TRADES_MIN : ℚ)) / ((TRADES_GOOD : ℚ) - (TRADES_MIN : ℚ)) * 30
  else
    (count : ℚ) / (TRADES_MIN : ℚ) * 30

/-- `TraderScorer._score_drawdown` — lower drawdown scores higher. -/
def score_drawdown (drawdown : ℚ) : ℚ :=
  if drawdown ≤ DRAWDOWN_EXCELLENT then 100
  else if drawdown ≤ DRAWDOWN_GOOD then
    70 + (DRAWDOWN_GOOD - drawdown) / (DRAWDOWN_GOOD - DRAWDOWN_EXCELLENT) * 30
  else if drawdown ≤ DRAWDOWN_MAX then
    30 + (DRAWDOWN_MAX - drawdown) / (DRAWDOWN_MAX - DRAWDOWN_GOOD) * 40
  else
    max 0 (30 - (drawdown - DRAWDOWN_MAX) * 100)

/-- `TraderScorer._score_consistency`. -/
def score_consistency (consistency : ℚ) : ℚ := consistency * 100

/-- `TraderScorer._score_diversity`. -/
def score_diversity (diversity : ℚ) : ℚ := diversity * 100

/-- `TraderScorer.calculate_score`: weighted sum of the six sub-scores
(weights `WEIGHTS` = 0.25/0.20/0.15/0.15/0.15/0.10), clamped to `[0, 100]`. -/
def calculate_score (stats : TraderStats) : ℚ :=
  min (max
    (score_win_rate stats.win_rate * 0.25 +
     score_roi stats.roi_30d * 0.20 +
     score_trade_count stats.trade_count * 0.15 +
     score_drawdown stats.max_drawdown * 0.15 +
     score_consistency stats.consistency * 0.15 +
     score_diversity stats.diversity_score * 0.10)
    0) 100

/-- `TraderScorer.get_heat_level`. -/
def get_heat_level (score : ℚ) : String :=
  if score ≥ 70 then "hot"
  else if score ≥ 50 then "warm"
  else "cold"

end TraderScorer

/-! ## `app/engine/sizer.py` — `DynamicSizer` -/

namespace DynamicSizer

/-- Shape of the dict returned by `DynamicSizer.calculate_risk_reward`. -/
structure RiskReward where
  potential_profit_percent : ℚ
  potential_loss_percent : ℚ
  risk_reward_ratio : ℚ
  entry_price : ℚ
  side : String
deriving DecidableEq, Repr

/-- `DynamicSizer.calculate_risk_reward`.  In the source, `1.0 / entry_price`
(side `"YES"`, `entry_price = 0`) and `1.0 / (1 - entry_price)` (other sides,
`entry_price = 1`) raise `ZeroDivisionError`; the raise is modelled as `none`. -/
def calculate_risk_reward (entry_price : ℚ) (side : String) : Option RiskReward :=
  if side = "YES" then
    if entry_price = 0 then none
    else
      let potential_profit_percent : ℚ := (1 / entry_price - 1) * 100
      let potential_loss_percent : ℚ := 100
      let risk_reward : ℚ :=
        if potential_loss_percent > 0 then potential_profit_percent / potential_loss_percent
        else 0
      some {
        potential_profit_percent := round1 potential_profit_percent,
        potential_loss_percent := round1 potential_loss_percent,
        risk_reward_ratio := round2 risk_reward,
        entry_price := entry_price,
        side := side }
  else
    if entry_price = 1 then none
    else
      let potential_profit_percent : ℚ := (1 / (1 - entry_price) - 1) * 100
      let potential_loss_percent : ℚ := 100
      let risk_reward : ℚ :=
        if potential_loss_percent > 0 then potential_profit_percent / potential_loss_percent
        else 0
      some {
        potential_profit_percent := round1 potential_profit_percent,
        potential_loss_percent := round1 potential_loss_percent,
        risk_reward_ratio := round2 risk_reward,
        entry_price := entry_price,
        side := side }

end DynamicSizer

/-! ## `app/brain/decider.py` — `CopyDecider` -/

namespace CopyDecider

def MIN_SCORE_TO_COPY : ℚ := 50
def CONSENSUS_BONUS : ℚ := 10
def MAX_CONSENSUS_BONUS : ℚ := 30
def HIGH_CONFIDENCE_SCORE : ℚ := 90
def MEDIUM_CONFIDENCE_SCORE : ℚ := 70

/-- Per-instance mutable state of `CopyDecider`:
`_recent_decisions : market_id → timestamp` and
`_open_positions : market_id → trade_id`, both Python dicts. -/
structure DeciderState where
  recent_decisions : List (String × ℚ) := []
  open_positions : List (String × String) := []
deriving DecidableEq, Repr

/-- Dict assignment `d[k] = v` on an association list. -/
def assocInsert {β : Type} (k : String) (v : β) (l : List (String × β)) :
    List (String × β) :=
  (k, v) :: l.eraseP (fun p => decide (p.1 = k))

/-- `CopyDecider._has_recent_decision`. -/
def has_recent_decision (st : DeciderState) (market_id : String) (now : ℚ)
    (cooldown_minutes : ℚ := 30) : Bool :=
  match st.recent_decisions.lookup market_id with
  | none => false
  | some last_decision => decide (now - last_decision < cooldown_minutes)

/-- Check 5 of `CopyDecider.decide`: this whale counts as 1, plus every
other signal on the same market, same side, from a different whale. -/
def consensus_count_of (signal : TradeSignal) (others : List TradeSignal) : ℤ :=
  1 + (others.countP (fun o =>
    decide (o.market_id = signal.market_id ∧ o.side = signal.side ∧
            o.whale_address ≠ signal.whale_address)) : ℤ)

/-- The consensus bonus of `CopyDecider.decide`:
`min((consensus_count − 1) · CONSENSUS_BONUS, MAX_CONSENSUS_BONUS)`. -/
def consensus_bonus (consensus_count : ℤ) : ℚ :=
  min (((consensus_count : ℚ) - 1) * CONSENSUS_BONUS) MAX_CONSENSUS_BONUS

/-- The consensus-adjusted score of `CopyDecider.decide` (checks 5 and 6):
`min(whale.score + bonus, 100)`, further capped at 60 when market data is
supplied and its liquidity is below 1000. -/
def adjusted_score (whale_score : ℚ) (consensus_count : ℤ)
    (market : Option Market) : ℚ :=
  let final_score := min (whale_score + consensus_bonus consensus_count) 100
  match market with
  | some m => if m.liquidity < 1000 then min final_score 60 else final_score
  | none => final_score

/-- `CopyDecider._calculate_amount`: confidence-tiered position size. -/
def calculate_amount (cfg : Settings) (balance : ℚ) (score : ℚ)
    (consensus : ℤ) : ℚ :=
  let max_percent := cfg.max_trade_percent / 100
  let percent :=
    if score ≥ HIGH_CONFIDENCE_SCORE ∧ consensus ≥ 3 then max_percent
    else if score ≥ MEDIUM_CONFIDENCE_SCORE then max_percent * 0.5
    else max_percent * 0.2
  let amount := balance * percent
  let amount := max amount 1
  let amount := min amount (balance * max_percent)
  let amount := min amount balance
  round2 amount

/-- `CopyDecider.decide`: gate chain, consensus scoring, sizing, and
cooldown recording.  The in-place update of `signal.whale_score` /
`signal.whale_name` does not influence the decision and is omitted; numeric
interpolation into the (Turkish) reason strings is omitted. -/
def decide (cfg : Settings) (st : DeciderState) (signal : TradeSignal)
    (whale : Trader) (balance : ℚ) (market : Option Market)
    (other_whale_signals : List TradeSignal) (now : ℚ) :
    CopyDecision × DeciderState :=
  -- Check 1: is the whale score high enough?
  if whale.score < cfg.min_whale_score then
    ({ should_copy := false,
       reason := "Whale skoru düşük",
       confidence := whale.score }, st)
  -- Check 2: do we have enough balance? (hard minimum $1)
  else if balance < 1 then
    ({ should_copy := false,
       reason := "Yetersiz bakiye (min $1)",
       confidence := whale.score }, st)
  -- Check 3: did we already trade this market recently?
  else if has_recent_decision st signal.market_id now then
    ({ should_copy := false,
       reason := "Bu markette yakın zamanda işlem yapıldı",
       confidence := whale.score }, st)
  -- Check 4: do we already have an open position on this market?
  else if (st.open_positions.lookup signal.market_id).isSome then
    ({ should_copy := false,
       reason := "Bu markette açık pozisyon var",
       confidence := whale.score }, st)
  else
    -- Checks 5 and 6: consensus and market-liquidity adjustment
    let consensus_count := consensus_count_of signal other_whale_signals
    let final_score := adjusted_score whale.score consensus_count market
    -- Final decision threshold
    if final_score < MIN_SCORE_TO_COPY then
      ({ should_copy := false,
         reason := "Yetersiz güven skoru",
         confidence := final_score,
         consensus_count := consensus_count }, st)
    else
      let amount := calculate_amount cfg balance final_score consensus_count
      let reason := String.intercalate " | "
        (["Skor"] ++ (if consensus_count > 1 then ["whale onayladı"] else []) ++
         ["işlem"])
      ({ should_copy := true,
         amount := amount,
         reason := reason,
         confidence := final_score,
         consensus_count := consensus_count },
       { st with recent_decisions := assocInsert signal.market_id now st.recent_decisions })

/-- `CopyDecider.register_position`. -/
def register_position (st : DeciderState) (market_id trade_id : String) :
    DeciderState :=
  { st with open_positions := assocInsert market_id trade_id st.open_positions }

end CopyDecider

/-! ## `app/engine/paper_trader.py` — `PaperTrader` -/

namespace PaperTrader

/-- One entry of `PaperTrader._balance_history` (the timestamp, kept only
for display, is omitted). -/
structure BalanceSample where
  balance : ℚ
  pnl : ℚ
  trade_count : ℤ
deriving DecidableEq, Repr

/-- The mutable state of a `PaperTrader`: initial balance, current balance,
open positions (`_positions : trade_id → Trade`, a dict modelled as the list
of its values, looked up by id), trade history, aggregate statistics, and
balance history. -/
structure PaperState where
  initial_balance : ℚ
  balance : ℚ
  positions : List Trade := []
  trade_history : List Trade := []
  stats : TradingStats := {}
  balance_history : List BalanceSample := []
deriving DecidableEq, Repr

/-- `PaperTrader.total_value`: balance plus committed amounts of open
positions. -/
def total_value (st : PaperState) : ℚ :=
  st.balance + (st.positions.map Trade.amount).sum

/-- `PaperTrader.pnl`. -/
def pnl (st : PaperState) : ℚ := total_value st - st.initial_balance

/-- `PaperTrader.__init__` for a fresh process (no persisted balance and no
persisted open trades to recover). -/
def init (initial_balance : ℚ) : PaperState :=
  { initial_balance := initial_balance,
    balance := initial_balance,
    balance_history := [{ balance := initial_balance, pnl := 0, trade_count := 0 }] }

/-- `PaperTrader._record_balance`. -/
def record_balance (st : PaperState) : PaperState :=
  { st with balance_history := st.balance_history ++
      [{ balance := st.balance, pnl := pnl st,
         trade_count := (st.trade_history.length : ℤ) }] }

/-- `PaperTrader.execute_trade`.  `base_slippage` is the injected value of
`random.uniform(0.005, 0.03)`; `new_id` is the fresh `uuid4()` string. -/
def execute_trade (st : PaperState) (signal : TradeSignal)
    (decision : CopyDecision) (base_slippage : ℚ) (new_id : String) :
    Option Trade × PaperState :=
  if ¬ decision.should_copy then (none, st)
  else
    let amount := decision.amount
    -- Check balance
    if amount > st.balance then (none, st)
    else
      -- Realistic slippage simulation: larger amounts = more slippage
      let size_impact := min (amount / 100) 0.02
      let total_slippage := base_slippage + size_impact
      -- Apply slippage in unfavorable direction
      let realistic_price :=
        if signal.side = TradeSide.YES then signal.price * (1 + total_slippage)
        else signal.price * (1 - total_slippage)
      -- Reject if slippage too high (>10% = missed opportunity)
      if |realistic_price - signal.price| / max signal.price 0.01 > 0.10 then
        (none, st)
      else
        -- Cap price at valid range
        let realistic_price := max 0.01 (min 0.99 realistic_price)
        let trade : Trade :=
          { id := new_id,
            is_paper := true,
            whale_address := signal.whale_address,
            whale_name := signal.whale_name,
            market_id := signal.market_id,
            market_question := signal.market_question,
            category := signal.category,
            side := signal.side,
            amount := amount,
            entry_price := realistic_price,
            whale_score_at_entry := signal.whale_score,
            consensus_count := decision.consensus_count,
            decision_reason := some decision.reason }
        let st' : PaperState :=
          { st with
            balance := st.balance - amount,
            positions := st.positions ++ [trade],
            stats := { st.stats with
              total_trades := st.stats.total_trades + 1,
              open_trades := st.stats.open_trades + 1 } }
        (some trade, record_balance st')

/-- `PaperTrader.close_position`. -/
def close_position (st : PaperState) (trade_id : String) (final_price : ℚ)
    (outcome : Option String) : Option Trade × PaperState :=
  match st.positions.find? (fun t => decide (t.id = trade_id)) with
  | none => (none, st)
  | some trade =>
    -- Set exit price based on outcome (1.0 for a YES win, 0.0 for a NO win)
    let exit_price : ℚ :=
      if outcome = some "YES" then 1
      else if outcome = some "NO" then 0
      else final_price
    let trade := { trade with exit_price := some exit_price }
    -- Calculate profit
    let trade := trade.calculate_profit
    -- Update status
    let trade := { trade with status := TradeStatus.CLOSED }
    let st' : PaperState :=
      { st with
        -- Return funds + profit
        balance := st.balance + trade.amount + (trade.profit.getD 0),
        -- Update stats
        stats :=
          (let s := st.stats.update trade
           { s with open_trades := s.open_trades - 1 }),
        -- Move to history
        positions := st.positions.eraseP (fun t => decide (t.id = trade_id)),
        trade_history := st.trade_history ++ [trade] }
    (some trade, record_balance st')

/-- `PaperTrader.cancel_position` — full refund, no payout math, and no
balance-history sample. -/
def cancel_position (st : PaperState) (trade_id : String) :
    Option Trade × PaperState :=
  match st.positions.find? (fun t => decide (t.id = trade_id)) with
  | none => (none, st)
  | some trade =>
    let trade := { trade with status := TradeStatus.CANCELLED, profit := some 0 }
    (some trade,
     { st with
       -- Refund
       balance := st.balance + trade.amount,
       -- Update stats
       stats := { st.stats with open_trades := st.stats.open_trades - 1 },
       -- Move to history
       positions := st.positions.eraseP (fun t => decide (t.id = trade_id)),
       trade_history := st.trade_history ++ [trade] })

end PaperTrader

/-! ## Sample inputs (used by witnesses and counterexamples) -/

/-- A sample whale signal: YES at price 0.50 on market `m1`. -/
def sampleSignal : TradeSignal :=
  { whale_address := "0xwhale1", market_id := "m1",
    side := TradeSide.YES, amount := 5000, price := 0.5 }

/-- A sample accepted decision committing $100. -/
def sampleDecision : CopyDecision :=
  { should_copy := true, amount := 100, reason := "test",
    confidence := 95, consensus_count := 3 }

/-- The trade produced by executing `sampleDecision` on `sampleSignal` with
injected base slippage 1%: size impact is `min(100/100, 0.02) = 0.02`, so the
entry price is `0.5 · 1.03 = 0.515`. -/
def sampleTrade : Trade :=
  { id := "t1", whale_address := "0xwhale1", market_id := "m1",
    side := TradeSide.YES, amount := 100, entry_price := 0.515,
    consensus_count := 3, decision_reason := some "test" }

/-- The simulator state right after executing `sampleTrade` from a fresh
$1000 balance (balance-history samples elided — they carry no invariant). -/
def sampleOpenState : PaperTrader.PaperState :=
  { initial_balance := 1000, balance := 900, positions := [sampleTrade],
    trade_history := [],
    stats := { total_trades := 1, open_trades := 1 },
    balance_history := [] }

/-- A whale below the default 50-point copy threshold. -/
def sampleColdWhale : Trader := { address := "0xcold", score := 40 }

/-- A hot whale with score 95 (the end-to-end scenario of the spec). -/
def sampleHotWhale : Trader := { address := "0xwhale1", name := some "Alpha", score := 95 }

/-- A second whale agreeing with `sampleSignal` (same market, same side,
different address). -/
def sampleSignal2 : TradeSignal :=
  { whale_address := "0xwhale2", market_id := "m1",
    side := TradeSide.YES, amount := 800, price := 0.5 }

/-- A third agreeing whale. -/
def sampleSignal3 : TradeSignal :=
  { whale_address := "0xwhale3", market_id := "m1",
    side := TradeSide.YES, amount := 600, price := 0.5 }

/-! ## Shared helper lemmas -/

/-- Looking up a freshly appended element: if the predicate rejects every
element of `l` and accepts `u`, then `find?` on `l ++ [u]` returns `u`. -/
theorem find?_append_singleton {α : Type} {l : List α} {p : α → Bool} {u : α}
    (hl : ∀ v ∈ l, p v = false) (hu : p u = true) :
    (l ++ [u]).find? p = some u := by
  induction l with
  | nil => simp [List.find?, hu]
  | cons a as ih =>
    have ha : p a = false := hl a (by simp)
    simp only [List.cons_append, List.find?, ha]
    exact ih (fun v hv => hl v (by simp [hv]))

/-- `Trade.calculate_profit` writes exactly the binary-payout profit for the
exit price it finds on the trade. -/
theorem calculate_profit_profit (t : Trade) (ep : ℚ) :
    (Trade.calculate_profit { t with exit_price := some ep }).profit =
      some (if t.side = TradeSide.YES then
              (if ep ≥ 0.99 then t.amount * (1 / t.entry_price - 1) else -t.amount)
            else
              (if ep ≤ 0.01 then t.amount * (1 / (1 - t.entry_price) - 1) else -t.amount)) := by
  cases h : t.side <;> simp [Trade.calculate_profit, h] <;> split_ifs <;> rfl

/-- `Trade.calculate_profit` only touches the profit fields. -/
theorem calculate_profit_amount (t : Trade) :
    (Trade.calculate_profit t).amount = t.amount := by
  unfold Trade.calculate_profit
  cases t.exit_price <;> cases t.side <;> dsimp only <;> split_ifs <;> rfl

/-! ## C1 — balance invariant of the simulator -/

/-- **C1.** For every `TradeSignal` and `CopyDecision`, `execute_trade` never
results in a negative balance, and whenever a `Trade` is returned the balance
immediately after equals the balance immediately before minus
`decision.amount`, exactly; the debited amount is only returned on close
(together with the profit/loss) or in full on cancel. -/
theorem execute_balance_invariant
    (st : PaperTrader.PaperState) (hb : 0 ≤ st.balance)
    (signal : TradeSignal) (decision : CopyDecision) (base_slippage : ℚ)
    (new_id trade_id : String) (final_price : ℚ) (outcome : Option String) :
    0 ≤ (PaperTrader.execute_trade st signal decision base_slippage new_id).2.balance ∧
    (∀ t, (PaperTrader.execute_trade st signal decision base_slippage new_id).1 = some t →
      (PaperTrader.execute_trade st signal decision base_slippage new_id).2.balance
        = st.balance - decision.amount) ∧
    (∀ t, (PaperTrader.close_position st trade_id final_price outcome).1 = some t →
      (PaperTrader.close_position st trade_id final_price outcome).2.balance
        = st.balance + t.amount + t.profit.getD 0) ∧
    (∀ t, (PaperTrader.cancel_position st trade_id).1 = some t →
      (PaperTrader.cancel_position st trade_id).2.balance = st.balance + t.amount) := by
  refine ⟨?_, ?_, ?_, ?_⟩
  · simp only [PaperTrader.execute_trade, PaperTrader.record_balance]
    split_ifs with h1 h2 h3 <;> simp <;> linarith
  · intro t ht
    simp only [PaperTrader.execute_trade, PaperTrader.record_balance] at ht ⊢
    split_ifs at ht ⊢ <;> simp_all
  · intro t ht
    simp only [PaperTrader.close_position, PaperTrader.record_balance] at ht ⊢
    cases hf : st.positions.find? (fun u => decide (u.id = trade_id)) <;>
      simp [hf] at ht ⊢
    subst ht; rfl
  · intro t ht
    simp only [PaperTrader.cancel_position] at ht ⊢
    cases hf : st.positions.find? (fun u => decide (u.id = trade_id)) <;>
      simp [hf] at ht ⊢
    subst ht; rfl

/-- Witness for C1 at a concrete state: fresh trader with $1000, the sample
signal/decision, injected slippage 1%. -/
theorem execute_balance_invariant_witness :
    (0:ℚ) ≤ (PaperTrader.init 1000).balance ∧
    0 ≤ (PaperTrader.execute_trade (PaperTrader.init 1000) sampleSignal
          sampleDecision (1/100) "t1").2.balance :=
  ⟨by norm_num [PaperTrader.init],
   (execute_balance_invariant (PaperTrader.init 1000)
      (by norm_num [PaperTrader.init]) sampleSignal
      sampleDecision (1/100) "t1" "t1" (1/2) none).1⟩

/-! ## C2 — close settles by binary payout math -/

/-- **C2.** Closing any open trade sets the exit price from the outcome
(`"YES"` → 1.0, `"NO"` → 0.0, otherwise `final_price`), computes the profit
by binary payout math — side YES with exit ≥ 0.99 wins
`amount·(1/entry_price − 1)`, side YES with exit < 0.99 loses the stake,
side NO with exit ≤ 0.01 wins `amount·(1/(1−entry_price) − 1)`, otherwise
loses the stake — credits the balance by `amount + profit`, and moves the
trade from the open map to the history. -/
theorem close_binary_payout
    (st : PaperTrader.PaperState) (trade_id : String) (final_price : ℚ)
    (outcome : Option String) (t0 : Trade)
    (hf : st.positions.find? (fun t => decide (t.id = trade_id)) = some t0) :
    ∃ t', (PaperTrader.close_position st trade_id final_price outcome).1 = some t' ∧
      t'.profit = some (
        if t0.side = TradeSide.YES then
          (if (if outcome = some "YES" then (1:ℚ)
               else if outcome = some "NO" then 0 else final_price) ≥ 0.99
           then t0.amount * (1 / t0.entry_price - 1) else -t0.amount)
        else
          (if (if outcome = some "YES" then (1:ℚ)
               else if outcome = some "NO" then 0 else final_price) ≤ 0.01
           then t0.amount * (1 / (1 - t0.entry_price) - 1) else -t0.amount)) ∧
      (PaperTrader.close_position st trade_id final_price outcome).2.balance
        = st.balance + t0.amount + t'.profit.getD 0 ∧
      (PaperTrader.close_position st trade_id final_price outcome).2.positions
        = st.positions.eraseP (fun t => decide (t.id = trade_id)) ∧
      (PaperTrader.close_position st trade_id final_price outcome).2.trade_history
        = st.trade_history ++ [t'] ∧
      t'.status = TradeStatus.CLOSED := by
  simp only [PaperTrader.close_position, hf, PaperTrader.record_balance]
  refine ⟨_, rfl, ?_, ?_, ?_, ?_, ?_⟩
  · exact calculate_profit_profit t0 _
  · simp [calculate_profit_amount]
  · trivial
  · trivial
  · trivial

/-- Witness for C2: closing the sample YES trade (entry 0.515) with
outcome `"YES"`. -/
theorem close_binary_payout_witness :
    sampleOpenState.positions.find? (fun t => decide (t.id = "t1")) = some sampleTrade ∧
    (∃ t', (PaperTrader.close_position sampleOpenState "t1" (1/2) (some "YES")).1 = some t' ∧
      t'.profit = some (
        if sampleTrade.side = TradeSide.YES then
          (if (if (some "YES" : Option String) = some "YES" then (1:ℚ)
               else if (some "YES" : Option String) = some "NO" then 0 else (1/2)) ≥ 0.99
           then sampleTrade.amount * (1 / sampleTrade.entry_price - 1) else -sampleTrade.amount)
        else
          (if (if (some "YES" : Option String) = some "YES" then (1:ℚ)
               else if (some "YES" : Option String) = some "NO" then 0 else (1/2)) ≤ 0.01
           then sampleTrade.amount * (1 / (1 - sampleTrade.entry_price) - 1) else -sampleTrade.amount)) ∧
      (PaperTrader.close_position sampleOpenState "t1" (1/2) (some "YES")).2.balance
        = sampleOpenState.balance + sampleTrade.amount + t'.profit.getD 0 ∧
      (PaperTrader.close_position sampleOpenState "t1" (1/2) (some "YES")).2.positions
        = sampleOpenState.positions.eraseP (fun t => decide (t.id = "t1")) ∧
      (PaperTrader.close_position sampleOpenState "t1" (1/2) (some "YES")).2.trade_history
        = sampleOpenState.trade_history ++ [t'] ∧
      t'.status = TradeStatus.CLOSED) :=
  ⟨by simp [sampleOpenState, sampleTrade],
   close_binary_payout sampleOpenState "t1" (1/2) (some "YES") sampleTrade
     (by simp [sampleOpenState, sampleTrade])⟩

/-! ## C7 — rejected executions leave the simulator untouched -/

/-- **C7.** Every rejecting call of `execute_trade` — `should_copy` false,
`amount > balance`, or relative slippage deviation above 10% (measured as
`|adjusted − signal.price| / max(signal.price, 0.01)`) — returns `none` and
leaves the state exactly unchanged (balance, positions, stats, histories);
in particular the slippage rejection happens before any balance commitment. -/
theorem execute_reject_noop
    (st : PaperTrader.PaperState) (signal : TradeSignal)
    (decision : CopyDecision) (base_slippage : ℚ) (new_id : String) :
    (decision.should_copy = false →
      PaperTrader.execute_trade st signal decision base_slippage new_id = (none, st)) ∧
    (decision.amount > st.balance →
      PaperTrader.execute_trade st signal decision base_slippage new_id = (none, st)) ∧
    (|(if signal.side = TradeSide.YES
        then signal.price * (1 + (base_slippage + min (decision.amount / 100) 0.02))
        else signal.price * (1 - (base_slippage + min (decision.amount / 100) 0.02)))
       - signal.price| / max signal.price 0.01 > 0.10 →
      PaperTrader.execute_trade st signal decision base_slippage new_id = (none, st)) := by
  refine ⟨?_, ?_, ?_⟩ <;> intro h <;>
    simp only [PaperTrader.execute_trade] <;>
    split_ifs <;> simp_all

/-- Witness for C7: a `should_copy = false` decision is a no-op. -/
theorem execute_reject_noop_witness :
    ({ should_copy := false, reason := "no" } : CopyDecision).should_copy = false ∧
    PaperTrader.execute_trade (PaperTrader.init 1000) sampleSignal
      { should_copy := false, reason := "no" } (1/100) "t1"
      = (none, PaperTrader.init 1000) :=
  ⟨rfl,
   (execute_reject_noop (PaperTrader.init 1000) sampleSignal
      { should_copy := false, reason := "no" } (1/100) "t1").1 rfl⟩

/-! ## C10 — cancel refunds in full and is inverse to execute -/

/-- **C10.** `cancel_position` on an open trade credits the balance by
exactly the trade's amount, forces `profit = 0` and status `CANCELLED`, and
changes no `TradingStats` field other than `open_trades` (in particular
`wins`, `losses`, `total_profit`, `total_invested`, `win_rate` and
`closed_trades` are untouched); consequently an accepted `execute_trade`
immediately followed by `cancel_position` of the returned trade restores the
balance to its exact value before the execute. -/
theorem cancel_refund_roundtrip
    (st : PaperTrader.PaperState) (tid : String) (signal : TradeSignal)
    (decision : CopyDecision) (base_slippage : ℚ) (new_id : String) :
    (∀ t, (PaperTrader.cancel_position st tid).1 = some t →
      (PaperTrader.cancel_position st tid).2.balance = st.balance + t.amount ∧
      t.profit = some 0 ∧ t.status = TradeStatus.CANCELLED ∧
      (PaperTrader.cancel_position st tid).2.stats =
        { st.stats with open_trades := st.stats.open_trades - 1 }) ∧
    (∀ u, (PaperTrader.execute_trade st signal decision base_slippage new_id).1 = some u →
      (∀ v ∈ st.positions, v.id ≠ new_id) →
      (PaperTrader.cancel_position
        (PaperTrader.execute_trade st signal decision base_slippage new_id).2
        u.id).2.balance = st.balance) := by
  constructor
  · intro t ht
    simp only [PaperTrader.cancel_position] at ht ⊢
    cases hf : st.positions.find? (fun u => decide (u.id = tid)) <;>
      simp [hf] at ht ⊢
    subst ht
    exact ⟨rfl, rfl, rfl⟩
  · intro u hu hfresh
    simp only [PaperTrader.execute_trade] at hu ⊢
    split_ifs at hu ⊢ <;> simp_all
    all_goals {
      have hid : u.id = new_id := by rw [← hu]
      have ham : u.amount = decision.amount := by rw [← hu]
      have hfind : (st.positions ++ [u]).find? (fun v => decide (v.id = u.id))
          = some u :=
        find?_append_singleton (fun v hv => by simp [hid, hfresh v hv]) (by simp)
      simp [PaperTrader.cancel_position, PaperTrader.record_balance, hfind, ham]
    }

/-- Witness for C10: executing the sample trade and cancelling it restores
the initial $1000 balance. -/
theorem cancel_refund_roundtrip_witness :
    (PaperTrader.execute_trade (PaperTrader.init 1000) sampleSignal
      sampleDecision (1/100) "t1").1 = some sampleTrade ∧
    (PaperTrader.cancel_position
      (PaperTrader.execute_trade (PaperTrader.init 1000) sampleSignal
        sampleDecision (1/100) "t1").2
      sampleTrade.id).2.balance = (PaperTrader.init 1000).balance :=
  ⟨by norm_num [PaperTrader.execute_trade, PaperTrader.init, sampleSignal,
      sampleDecision, sampleTrade, PaperTrader.record_balance, abs_of_pos],
   (cancel_refund_roundtrip (PaperTrader.init 1000) "t1" sampleSignal
      sampleDecision (1/100) "t1").2 sampleTrade
      (by norm_num [PaperTrader.execute_trade, PaperTrader.init, sampleSignal,
        sampleDecision, sampleTrade, PaperTrader.record_balance, abs_of_pos])
      (by simp [PaperTrader.init])⟩

/-! ## C3 — the decision gates, their order and their outputs -/

/-- **C3.** `decide` never returns `should_copy = true` when the whale score
is below `min_whale_score`, when `balance < 1`, when the signal's market has
a cooldown entry younger than 30 minutes, or when the market is in the
open-position registry; and the four gates fire in exactly that order,
short-circuiting at the first failure, each returning `should_copy = false`
with its own reason string and `confidence = whale.score`. -/
theorem decide_gate_order
    (cfg : Settings) (st : CopyDecider.DeciderState) (signal : TradeSignal)
    (whale : Trader) (balance : ℚ) (market : Option Market)
    (others : List TradeSignal) (now : ℚ) :
    ((whale.score < cfg.min_whale_score ∨ balance < 1 ∨
      CopyDecider.has_recent_decision st signal.market_id now = true ∨
      (st.open_positions.lookup signal.market_id).isSome = true) →
      (CopyDecider.decide cfg st signal whale balance market others now).1.should_copy
        = false) ∧
    (whale.score < cfg.min_whale_score →
      (CopyDecider.decide cfg st signal whale balance market others now).1 =
        { should_copy := false, reason := "Whale skoru düşük",
          confidence := whale.score }) ∧
    (¬ whale.score < cfg.min_whale_score → balance < 1 →
      (CopyDecider.decide cfg st signal whale balance market others now).1 =
        { should_copy := false, reason := "Yetersiz bakiye (min $1)",
          confidence := whale.score }) ∧
    (¬ whale.score < cfg.min_whale_score → ¬ balance < 1 →
      CopyDecider.has_recent_decision st signal.market_id now = true →
      (CopyDecider.decide cfg st signal whale balance market others now).1 =
        { should_copy := false, reason := "Bu markette yakın zamanda işlem yapıldı",
          confidence := whale.score }) ∧
    (¬ whale.score < cfg.min_whale_score → ¬ balance < 1 →
      CopyDecider.has_recent_decision st signal.market_id now = false →
      (st.open_positions.lookup signal.market_id).isSome = true →
      (CopyDecider.decide cfg st signal whale balance market others now).1 =
        { should_copy := false, reason := "Bu markette açık pozisyon var",
          confidence := whale.score }) := by
  refine ⟨?_, ?_, ?_, ?_, ?_⟩
  · intro h
    simp only [CopyDecider.decide]
    split_ifs <;> simp_all
  · intro h
    simp only [CopyDecider.decide]
    split_ifs <;> simp_all
  · intro h1 h2
    simp only [CopyDecider.decide]
    split_ifs <;> simp_all
  · intro h1 h2 h3
    simp only [CopyDecider.decide]
    split_ifs <;> simp_all
  · intro h1 h2 h3 h4
    simp only [CopyDecider.decide]
    split_ifs <;> simp_all

/-- Witness for C3: a whale with score 40 is rejected by gate 1 under the
default settings. -/
theorem decide_gate_order_witness :
    sampleColdWhale.score < ({} : Settings).min_whale_score ∧
    (CopyDecider.decide {} {} sampleSignal sampleColdWhale 1000 none [] 0).1 =
      { should_copy := false, reason := "Whale skoru düşük",
        confidence := sampleColdWhale.score } :=
  ⟨by norm_num [sampleColdWhale],
   (decide_gate_order {} {} sampleSignal sampleColdWhale 1000 none [] 0).2.1
     (by norm_num [sampleColdWhale])⟩

/-! ## C4 — consensus counting and score caps -/

/-- The consensus bonus is capped at 30 for every consensus count. -/
theorem consensus_bonus_le_30 (n : ℤ) : CopyDecider.consensus_bonus n ≤ 30 := by
  simpa [CopyDecider.consensus_bonus, CopyDecider.MAX_CONSENSUS_BONUS]
    using min_le_right _ (30 : ℚ)

/-- The consensus-adjusted score never exceeds 100. -/
theorem adjusted_score_le_100 (s : ℚ) (n : ℤ) (m : Option Market) :
    CopyDecider.adjusted_score s n m ≤ 100 := by
  unfold CopyDecider.adjusted_score
  cases m with
  | none => exact min_le_right _ _
  | some mm =>
    dsimp only
    split_ifs
    · exact le_trans (min_le_left _ _) (min_le_right _ _)
    · exact min_le_right _ _

/-- When supplied market liquidity is below 1000, the adjusted score is
capped at 60. -/
theorem adjusted_score_low_liquidity (s : ℚ) (n : ℤ) (mm : Market)
    (h : mm.liquidity < 1000) :
    CopyDecider.adjusted_score s n (some mm) ≤ 60 := by
  simp only [CopyDecider.adjusted_score, h, if_true]
  exact min_le_right _ _

/-- **C4.** Past the first four gates, the decision's consensus count is
1 plus the number of other signals with the same market, same side and a
different whale address; the consensus bonus `min((n−1)·10, 30)` never
exceeds 30, the adjusted final score `min(score + bonus, 100)` never exceeds
100 (and the returned confidence obeys that bound), and when a market with
liquidity < 1000 is supplied the returned confidence is capped at 60. -/
theorem decide_consensus_caps
    (cfg : Settings) (st : CopyDecider.DeciderState) (signal : TradeSignal)
    (whale : Trader) (balance : ℚ) (market : Option Market)
    (others : List TradeSignal) (now : ℚ)
    (h1 : ¬ whale.score < cfg.min_whale_score) (h2 : ¬ balance < 1)
    (h3 : CopyDecider.has_recent_decision st signal.market_id now = false)
    (h4 : (st.open_positions.lookup signal.market_id).isSome = false) :
    (CopyDecider.decide cfg st signal whale balance market others now).1.consensus_count
      = 1 + (others.countP (fun o =>
          decide (o.market_id = signal.market_id ∧ o.side = signal.side ∧
                  o.whale_address ≠ signal.whale_address)) : ℤ) ∧
    (∀ n : ℤ, CopyDecider.consensus_bonus n ≤ 30) ∧
    (∀ s : ℚ, ∀ n : ℤ, ∀ m : Option Market, CopyDecider.adjusted_score s n m ≤ 100) ∧
    (CopyDecider.decide cfg st signal whale balance market others now).1.confidence ≤ 100 ∧
    (∀ mm : Market, market = some mm → mm.liquidity < 1000 →
      (CopyDecider.decide cfg st signal whale balance market others now).1.confidence ≤ 60) := by
  refine ⟨?_, consensus_bonus_le_30, adjusted_score_le_100, ?_, ?_⟩
  · simp only [CopyDecider.decide, CopyDecider.consensus_count_of]
    split_ifs <;> simp_all
  · simp only [CopyDecider.decide]
    split_ifs <;> simp_all <;> exact adjusted_score_le_100 _ _ _
  · intro mm hm hliq
    subst hm
    simp only [CopyDecider.decide]
    split_ifs <;> simp_all <;>
      exact adjusted_score_low_liquidity whale.score _ mm hliq

/-- Witness for C4: score-80 whale, two agreeing whales, no market data. -/
theorem decide_consensus_caps_witness :
    (¬ sampleHotWhale.score < ({} : Settings).min_whale_score) ∧
    (CopyDecider.decide {} {} sampleSignal sampleHotWhale 1000 none
      [sampleSignal2, sampleSignal3] 0).1.consensus_count
      = 1 + (([sampleSignal2, sampleSignal3].countP (fun o =>
          decide (o.market_id = sampleSignal.market_id ∧ o.side = sampleSignal.side ∧
                  o.whale_address ≠ sampleSignal.whale_address))) : ℤ) :=
  ⟨by norm_num [sampleHotWhale],
   (decide_consensus_caps {} {} sampleSignal sampleHotWhale 1000 none
      [sampleSignal2, sampleSignal3] 0
      (by norm_num [sampleHotWhale]) (by norm_num)
      (by simp [CopyDecider.has_recent_decision]) (by simp)).1⟩

/-! ## C8 — confidence-tiered sizing of accepted decisions -/

/-- **C8.** Every accepted decision's amount is `_calculate_amount` applied
to the balance, the consensus-adjusted final score and the consensus count;
`_calculate_amount` picks `balance·max_percent` when score ≥ 90 and
consensus ≥ 3, `balance·max_percent·0.5` when score ≥ 70, otherwise
`balance·max_percent·0.2`, then floors at $1, caps at `balance·max_percent`
and at `balance`, and rounds to 2 decimals; with balance $1000, score 95,
consensus 3 and `max_trade_percent = 50` the amount is exactly $500. -/
theorem amount_tier_rule
    (cfg : Settings) (st : CopyDecider.DeciderState) (signal : TradeSignal)
    (whale : Trader) (balance : ℚ) (market : Option Market)
    (others : List TradeSignal) (now : ℚ) :
    ((CopyDecider.decide cfg st signal whale balance market others now).1.should_copy = true →
      (CopyDecider.decide cfg st signal whale balance market others now).1.amount
        = CopyDecider.calculate_amount cfg balance
            (CopyDecider.adjusted_score whale.score
              (CopyDecider.consensus_count_of signal others) market)
            (CopyDecider.consensus_count_of signal others)) ∧
    (∀ b s : ℚ, ∀ c : ℤ, s ≥ 90 → c ≥ 3 →
      CopyDecider.calculate_amount cfg b s c
        = round2 (min (min (max (b * (cfg.max_trade_percent / 100)) 1)
            (b * (cfg.max_trade_percent / 100))) b)) ∧
    (∀ b s : ℚ, ∀ c : ℤ, ¬ (s ≥ 90 ∧ c ≥ 3) → s ≥ 70 →
      CopyDecider.calculate_amount cfg b s c
        = round2 (min (min (max (b * (cfg.max_trade_percent / 100 * 0.5)) 1)
            (b * (cfg.max_trade_percent / 100))) b)) ∧
    (∀ b s : ℚ, ∀ c : ℤ, ¬ (s ≥ 90 ∧ c ≥ 3) → ¬ s ≥ 70 →
      CopyDecider.calculate_amount cfg b s c
        = round2 (min (min (max (b * (cfg.max_trade_percent / 100 * 0.2)) 1)
            (b * (cfg.max_trade_percent / 100))) b)) ∧
    CopyDecider.calculate_amount { max_trade_percent := 50 } 1000 95 3 = 500 := by
  refine ⟨?_, ?_, ?_, ?_, ?_⟩
  · intro h
    simp only [CopyDecider.decide] at h ⊢
    split_ifs at h ⊢ <;> simp_all
  · intro b s c hs hc
    simp [CopyDecider.calculate_amount, CopyDecider.HIGH_CONFIDENCE_SCORE, hs, hc]
  · intro b s c hn hs
    simp only [CopyDecider.calculate_amount, CopyDecider.HIGH_CONFIDENCE_SCORE,
      CopyDecider.MEDIUM_CONFIDENCE_SCORE]
    rw [if_neg hn, if_pos hs]
  · intro b s c hn hs
    simp only [CopyDecider.calculate_amount, CopyDecider.HIGH_CONFIDENCE_SCORE,
      CopyDecider.MEDIUM_CONFIDENCE_SCORE]
    rw [if_neg hn, if_neg hs]
  · norm_num [CopyDecider.calculate_amount, CopyDecider.HIGH_CONFIDENCE_SCORE,
      round2, roundHalfEven]

/-- Witness for C8, the end-to-end scenario: score-95 whale, three-whale
consensus, default settings (`max_trade_percent = 50`), balance $1000 —
the decision is accepted and the decider's sizing rule applies, yielding
an amount of $500. -/
theorem amount_tier_rule_witness :
    (CopyDecider.decide {} {} sampleSignal sampleHotWhale 1000 none
      [sampleSignal2, sampleSignal3] 0).1.should_copy = true ∧
    (CopyDecider.decide {} {} sampleSignal sampleHotWhale 1000 none
      [sampleSignal2, sampleSignal3] 0).1.amount
      = CopyDecider.calculate_amount {} 1000
          (CopyDecider.adjusted_score sampleHotWhale.score
            (CopyDecider.consensus_count_of sampleSignal [sampleSignal2, sampleSignal3]) none)
          (CopyDecider.consensus_count_of sampleSignal [sampleSignal2, sampleSignal3]) ∧
    (CopyDecider.decide {} {} sampleSignal sampleHotWhale 1000 none
      [sampleSignal2, sampleSignal3] 0).1.amount = 500 := by
  refine ⟨?_, ?_, ?_⟩
  · simp [CopyDecider.decide, CopyDecider.has_recent_decision,
      CopyDecider.adjusted_score, CopyDecider.consensus_count_of,
      CopyDecider.consensus_bonus, CopyDecider.CONSENSUS_BONUS,
      CopyDecider.MAX_CONSENSUS_BONUS, CopyDecider.MIN_SCORE_TO_COPY,
      List.countP_cons,
      sampleHotWhale, sampleSignal, sampleSignal2, sampleSignal3]
    norm_num [min_def, max_def]
  · exact (amount_tier_rule {} {} sampleSignal sampleHotWhale 1000 none
      [sampleSignal2, sampleSignal3] 0).1
      (by
        simp [CopyDecider.decide, CopyDecider.has_recent_decision,
          CopyDecider.adjusted_score, CopyDecider.consensus_count_of,
          CopyDecider.consensus_bonus, CopyDecider.CONSENSUS_BONUS,
          CopyDecider.MAX_CONSENSUS_BONUS, CopyDecider.MIN_SCORE_TO_COPY,
          List.countP_cons,
          sampleHotWhale, sampleSignal, sampleSignal2, sampleSignal3]
        norm_num [min_def, max_def])
  · simp [CopyDecider.decide, CopyDecider.has_recent_decision,
      CopyDecider.adjusted_score, CopyDecider.consensus_count_of,
      CopyDecider.consensus_bonus, CopyDecider.CONSENSUS_BONUS,
      CopyDecider.MAX_CONSENSUS_BONUS, CopyDecider.MIN_SCORE_TO_COPY,
      List.countP_cons, CopyDecider.calculate_amount,
      CopyDecider.HIGH_CONFIDENCE_SCORE,
      sampleHotWhale, sampleSignal, sampleSignal2, sampleSignal3]
    norm_num [min_def, max_def, round2, roundHalfEven]

/-! ## C9 — the risk/reward estimate is not total on [0,1] -/

/-- **C9, counterexample.** At `entry_price = 0` (inside the stated domain
`[0,1]`) with side YES, `calculate_risk_reward` does not return a result:
`1.0 / entry_price` raises `ZeroDivisionError` (modelled as `none`).
Symmetrically for side NO at `entry_price = 1`. -/
theorem risk_reward_zero_price_cex :
    DynamicSizer.calculate_risk_reward 0 "YES" = none ∧
    DynamicSizer.calculate_risk_reward 1 "NO" = none := by
  constructor <;> simp [DynamicSizer.calculate_risk_reward]

/-- **C9, amended.** Away from the raising boundary points (`entry_price = 0`
for YES, `entry_price = 1` for NO), `calculate_risk_reward` always returns a
result with potential-profit-percent `(1/price − 1)·100` for YES resp.
`(1/(1−price) − 1)·100` for NO (rounded to 1 decimal, as returned),
potential-loss-percent 100, and ratio `profit%/loss%` (rounded to 2
decimals). -/
theorem risk_reward_total_amended (entry_price : ℚ) :
    (entry_price ≠ 0 →
      DynamicSizer.calculate_risk_reward entry_price "YES"
        = some { potential_profit_percent := round1 ((1 / entry_price - 1) * 100),
                 potential_loss_percent := 100,
                 risk_reward_ratio := round2 ((1 / entry_price - 1) * 100 / 100),
                 entry_price := entry_price, side := "YES" }) ∧
    (entry_price ≠ 1 →
      DynamicSizer.calculate_risk_reward entry_price "NO"
        = some { potential_profit_percent := round1 ((1 / (1 - entry_price) - 1) * 100),
                 potential_loss_percent := 100,
                 risk_reward_ratio := round2 ((1 / (1 - entry_price) - 1) * 100 / 100),
                 entry_price := entry_price, side := "NO" }) := by
  constructor <;> intro h <;>
    simp [DynamicSizer.calculate_risk_reward, h, round1, roundHalfEven] <;>
    norm_num

/-- Witness for the amended C9 at entry price 0.50, side YES. -/
theorem risk_reward_total_amended_witness :
    ((1:ℚ)/2 ≠ 0) ∧
    DynamicSizer.calculate_risk_reward (1/2) "YES"
      = some { potential_profit_percent := round1 ((1 / ((1:ℚ)/2) - 1) * 100),
               potential_loss_percent := 100,
               risk_reward_ratio := round2 ((1 / ((1:ℚ)/2) - 1) * 100 / 100),
               entry_price := 1/2, side := "YES" } :=
  ⟨by norm_num, (risk_reward_total_amended (1/2)).1 (by norm_num)⟩

/-! ## C6 — a round trip at the exact entry price does not break even -/

/-- **C6, counterexample.** Executing the sample decision (entry price
0.515 after slippage) and immediately closing at exactly that entry price
with `outcome = None` leaves profit `= −amount = −100 ≠ 0` and balance
`= 900 = balance_before − amount`: binary payout math is applied on every
close, so the balance is *not* restored up to a slippage adjustment error. -/
theorem roundtrip_entry_price_cex :
    (Option.map Trade.profit
      (PaperTrader.close_position
        (PaperTrader.execute_trade (PaperTrader.init 1000) sampleSignal
          sampleDecision (1/100) "t1").2
        "t1" sampleTrade.entry_price none).1) = some (some (-100)) ∧
    (PaperTrader.close_position
      (PaperTrader.execute_trade (PaperTrader.init 1000) sampleSignal
        sampleDecision (1/100) "t1").2
      "t1" sampleTrade.entry_price none).2.balance = 900 ∧
    ((-100 : ℚ) ≠ 0) := by
  have h1 : ((none : Option String) = some "YES") = False := by simp
  have h2 : ((none : Option String) = some "NO") = False := by simp
  refine ⟨?_, ?_, by norm_num⟩ <;>
    norm_num [PaperTrader.execute_trade, PaperTrader.close_position,
      PaperTrader.init, PaperTrader.record_balance, sampleSignal, sampleDecision,
      sampleTrade, abs_of_pos, Trade.calculate_profit, TradingStats.update,
      List.find?, h1, h2]

/-- Closing an open position at exactly its entry price with no outcome,
when that entry price lies in the losing band of the binary payout rule
(YES below 0.99, NO above 0.01), loses the whole stake: the close credits
`amount + (−amount) = 0`, so the balance is unchanged by the close. -/
theorem close_at_entry_losing (st : PaperTrader.PaperState) (tid : String)
    (t0 : Trade)
    (hf : st.positions.find? (fun t => decide (t.id = tid)) = some t0)
    (hlose : (t0.side = TradeSide.YES ∧ t0.entry_price < 0.99) ∨
             (t0.side = TradeSide.NO ∧ 0.01 < t0.entry_price)) :
    ∃ t', (PaperTrader.close_position st tid t0.entry_price none).1 = some t' ∧
      t'.profit = some (-t0.amount) ∧
      (PaperTrader.close_position st tid t0.entry_price none).2.balance
        = st.balance := by
  have h1 : ((none : Option String) = some "YES") = False := by simp
  have h2 : ((none : Option String) = some "NO") = False := by simp
  simp only [PaperTrader.close_position, hf, PaperTrader.record_balance, h1, h2,
    if_false]
  rcases hlose with ⟨hs, hp⟩ | ⟨hs, hp⟩ <;>
    refine ⟨_, rfl, ?_, ?_⟩ <;>
      rw [calculate_profit_profit] <;>
      simp [hs, not_le.mpr hp, calculate_profit_amount]

/-- **C6, amended.** An accepted `execute_trade` followed immediately by
`close_position(trade.id, trade.entry_price, outcome=None)` does **not**
return the balance to its pre-execute value: close always applies binary
payout math (there is no separate non-binary close path), so whenever the
slippage-adjusted entry price lies in the losing band (< 0.99 for YES,
> 0.01 for NO) the whole stake is lost — profit `= −amount` and the final
balance is `balance_before − decision.amount`. -/
theorem roundtrip_entry_price_amended
    (st : PaperTrader.PaperState) (signal : TradeSignal)
    (decision : CopyDecision) (base_slippage : ℚ) (new_id : String) (u : Trade)
    (hu : (PaperTrader.execute_trade st signal decision base_slippage new_id).1
      = some u)
    (hfresh : ∀ v ∈ st.positions, v.id ≠ new_id)
    (hlose : (u.side = TradeSide.YES ∧ u.entry_price < 0.99) ∨
             (u.side = TradeSide.NO ∧ 0.01 < u.entry_price)) :
    ∃ t', (PaperTrader.close_position
        (PaperTrader.execute_trade st signal decision base_slippage new_id).2
        u.id u.entry_price none).1 = some t' ∧
      t'.profit = some (-u.amount) ∧
      (PaperTrader.close_position
        (PaperTrader.execute_trade st signal decision base_slippage new_id).2
        u.id u.entry_price none).2.balance = st.balance - decision.amount := by
  simp only [PaperTrader.execute_trade] at hu ⊢
  split_ifs at hu ⊢ <;> simp_all
  · have hid : u.id = new_id := by rw [← hu]
    obtain ⟨t', h1', h2', h3'⟩ := close_at_entry_losing
      (PaperTrader.record_balance
        { st with
          balance := st.balance - decision.amount,
          positions := st.positions ++ [u],
          stats := { st.stats with
            total_trades := st.stats.total_trades + 1,
            open_trades := st.stats.open_trades + 1 } })
      u.id u
      (by
        simp only [PaperTrader.record_balance]
        exact find?_append_singleton (fun v hv => by simp [hid, hfresh v hv])
          (by simp))
      hlose
    exact ⟨t', h1', h2', h3'⟩
  · have hid : u.id = new_id := by rw [← hu]
    obtain ⟨t', h1', h2', h3'⟩ := close_at_entry_losing
      (PaperTrader.record_balance
        { st with
          balance := st.balance - decision.amount,
          positions := st.positions ++ [u],
          stats := { st.stats with
            total_trades := st.stats.total_trades + 1,
            open_trades := st.stats.open_trades + 1 } })
      u.id u
      (by
        simp only [PaperTrader.record_balance]
        exact find?_append_singleton (fun v hv => by simp [hid, hfresh v hv])
          (by simp))
      hlose
    exact ⟨t', h1', h2', h3'⟩

/-- Witness for the amended C6: the sample round trip (YES at adjusted entry
0.515 < 0.99) loses the full $100 stake. -/
theorem roundtrip_entry_price_amended_witness :
    ((PaperTrader.execute_trade (PaperTrader.init 1000) sampleSignal
        sampleDecision (1/100) "t1").1 = some sampleTrade) ∧
    (∃ t', (PaperTrader.close_position
        (PaperTrader.execute_trade (PaperTrader.init 1000) sampleSignal
          sampleDecision (1/100) "t1").2
        sampleTrade.id sampleTrade.entry_price none).1 = some t' ∧
      t'.profit = some (-sampleTrade.amount) ∧
      (PaperTrader.close_position
        (PaperTrader.execute_trade (PaperTrader.init 1000) sampleSignal
          sampleDecision (1/100) "t1").2
        sampleTrade.id sampleTrade.entry_price none).2.balance
        = (PaperTrader.init 1000).balance - sampleDecision.amount) :=
  ⟨by norm_num [PaperTrader.execute_trade, PaperTrader.init, sampleSignal,
      sampleDecision, sampleTrade, PaperTrader.record_balance, abs_of_pos],
   roundtrip_entry_price_amended (PaperTrader.init 1000) sampleSignal
     sampleDecision (1/100) "t1" sampleTrade
     (by norm_num [PaperTrader.execute_trade, PaperTrader.init, sampleSignal,
        sampleDecision, sampleTrade, PaperTrader.record_balance, abs_of_pos])
     (by simp [PaperTrader.init])
     (by norm_num [sampleTrade])⟩

/-! ## C5 — scorer range and monotonicity -/

theorem score_win_rate_mono {a b : ℚ} (h : a ≤ b) :
    TraderScorer.score_win_rate a ≤ TraderScorer.score_win_rate b := by
  unfold TraderScorer.score_win_rate TraderScorer.WIN_RATE_EXCELLENT
    TraderScorer.WIN_RATE_GOOD TraderScorer.WIN_RATE_MIN
  split_ifs <;> (try norm_num) <;> linarith

theorem score_roi_mono {a b : ℚ} (h : a ≤ b) :
    TraderScorer.score_roi a ≤ TraderScorer.score_roi b := by
  unfold TraderScorer.score_roi TraderScorer.ROI_EXCELLENT
    TraderScorer.ROI_GOOD TraderScorer.ROI_MIN
  simp only [max_def]
  split_ifs <;> (try norm_num) <;> linarith

theorem score_trade_count_mono {a b : ℤ} (h : a ≤ b) :
    TraderScorer.score_trade_count a ≤ TraderScorer.score_trade_count b := by
  unfold TraderScorer.score_trade_count TraderScorer.TRADES_EXCELLENT
    TraderScorer.TRADES_GOOD TraderScorer.TRADES_MIN
  split_ifs <;> qify at * <;> (try norm_num) <;>
    first | linarith | exact_mod_cast h

theorem score_drawdown_anti {a b : ℚ} (h : a ≤ b) :
    TraderScorer.score_drawdown b ≤ TraderScorer.score_drawdown a := by
  unfold TraderScorer.score_drawdown TraderScorer.DRAWDOWN_EXCELLENT
    TraderScorer.DRAWDOWN_GOOD TraderScorer.DRAWDOWN_MAX
  simp only [max_def]
  split_ifs <;> (try norm_num) <;> linarith

/-- The final clamp `min(max(·, 0), 100)` is monotone. -/
theorem clamp_mono {x y : ℚ} (h : x ≤ y) :
    min (max x 0) 100 ≤ min (max y 0) 100 :=
  min_le_min (max_le_max h le_rfl) le_rfl

/-- **C5.** For every `TraderStats` with fields in their stated domains
(`win_rate`, `max_drawdown`, `consistency`, `diversity_score` in `[0,1]`,
`trade_count ≥ 0`), the heat score lies in `[0, 100]` and, holding the other
five factors fixed, it is monotone non-decreasing in `win_rate`, `roi_30d`,
`trade_count`, `consistency` and `diversity_score`, and non-increasing in
`max_drawdown`. -/
theorem scorer_range_and_monotone (s : TraderStats)
    (hwr : 0 ≤ s.win_rate ∧ s.win_rate ≤ 1)
    (hdd : 0 ≤ s.max_drawdown ∧ s.max_drawdown ≤ 1)
    (hco : 0 ≤ s.consistency ∧ s.consistency ≤ 1)
    (hdi : 0 ≤ s.diversity_score ∧ s.diversity_score ≤ 1)
    (htc : 0 ≤ s.trade_count) :
    (0 ≤ TraderScorer.calculate_score s ∧ TraderScorer.calculate_score s ≤ 100) ∧
    (∀ a b : ℚ, 0 ≤ a → b ≤ 1 → a ≤ b →
      TraderScorer.calculate_score { s with win_rate := a }
        ≤ TraderScorer.calculate_score { s with win_rate := b }) ∧
    (∀ a b : ℚ, a ≤ b →
      TraderScorer.calculate_score { s with roi_30d := a }
        ≤ TraderScorer.calculate_score { s with roi_30d := b }) ∧
    (∀ a b : ℤ, 0 ≤ a → a ≤ b →
      TraderScorer.calculate_score { s with trade_count := a }
        ≤ TraderScorer.calculate_score { s with trade_count := b }) ∧
    (∀ a b : ℚ, 0 ≤ a → b ≤ 1 → a ≤ b →
      TraderScorer.calculate_score { s with consistency := a }
        ≤ TraderScorer.calculate_score { s with consistency := b }) ∧
    (∀ a b : ℚ, 0 ≤ a → b ≤ 1 → a ≤ b →
      TraderScorer.calculate_score { s with diversity_score := a }
        ≤ TraderScorer.calculate_score { s with diversity_score := b }) ∧
    (∀ a b : ℚ, 0 ≤ a → b ≤ 1 → a ≤ b →
      TraderScorer.calculate_score { s with max_drawdown := b }
        ≤ TraderScorer.calculate_score { s with max_drawdown := a }) := by
  refine ⟨⟨?_, ?_⟩, ?_, ?_, ?_, ?_, ?_, ?_⟩
  · exact le_min (le_max_right _ _) (by norm_num)
  · exact min_le_right _ _
  · intro a b _ _ hab
    dsimp only [TraderScorer.calculate_score]
    exact clamp_mono (by linarith [score_win_rate_mono hab])
  · intro a b hab
    dsimp only [TraderScorer.calculate_score]
    exact clamp_mono (by linarith [score_roi_mono hab])
  · intro a b _ hab
    dsimp only [TraderScorer.calculate_score]
    exact clamp_mono (by linarith [score_trade_count_mono hab])
  · intro a b _ _ hab
    dsimp only [TraderScorer.calculate_score]
    have : TraderScorer.score_consistency a ≤ TraderScorer.score_consistency b := by
      unfold TraderScorer.score_consistency; linarith
    exact clamp_mono (by linarith)
  · intro a b _ _ hab
    dsimp only [TraderScorer.calculate_score]
    have : TraderScorer.score_diversity a ≤ TraderScorer.score_diversity b := by
      unfold TraderScorer.score_diversity; linarith
    exact clamp_mono (by linarith)
  · intro a b _ _ hab
    dsimp only [TraderScorer.calculate_score]
    exact clamp_mono (by linarith [score_drawdown_anti hab])

/-- Witness for C5: the all-zero `TraderStats` (every field at the bottom of
its domain) — its score is within `[0, 100]`. -/
theorem scorer_range_and_monotone_witness :
    ((0:ℚ) ≤ 0 ∧ (0:ℚ) ≤ 1) ∧ ((0:ℤ) ≤ 0) ∧
    (0 ≤ TraderScorer.calculate_score {} ∧ TraderScorer.calculate_score {} ≤ 100) :=
  ⟨⟨le_refl 0, by norm_num⟩, le_refl 0,
   (scorer_range_and_monotone {} ⟨le_refl 0, by norm_num⟩ ⟨le_refl 0, by norm_num⟩
     ⟨le_refl 0, by norm_num⟩ ⟨le_refl 0, by norm_num⟩ (le_refl 0)).1⟩

end Coppol
